import Mathlib

/-!
Shallow embedding of the session protocol engine of the twilio-azure-ai-agents
repository: the DTMF state machine (`src/services/dtmfHelper.js`), the idle
timer (`src/services/idleTimer.js`), the state store (`stateManager.js`), the
agent stream adapter event contract (`azureAgentService.js`) and the session
controller (`src/services/websocketService.js`), together with theorems that
settle the frozen claims about them.

JavaScript strings are modelled as Lean `String`s; the DTMF input buffer
(`this.inputBuffer`, a string of digit characters built by `+=`) is modelled
as a `List Char`; `Date.now()` timestamps are modelled as `Int` milliseconds;
`setTimeout` scheduling is modelled explicitly as lists of pending timeouts
with absolute fire times.
-/

namespace TwilioAzure

/-! ## DTMF state machine (`src/services/dtmfHelper.js`) -/

/-- `DTMFHelper.States` enumeration. -/
inductive DTMFState where
  | languageSwitch
  | phoneNumber
  | dateOfBirth
  | confirmation
  | menuSelection
deriving DecidableEq, Repr

/-- Mutable fields of the `DTMFHelper` class.  `inputBuffer` is the JS string
of accumulated digit characters, modelled as a list of characters. -/
structure DTMFHelper where
  state : DTMFState
  inputBuffer : List Char
  isCollectionComplete : Bool
  expectedLength : Nat
deriving DecidableEq, Repr

/-- The `DTMFHelper` constructor. -/
def DTMFHelper.init : DTMFHelper :=
  { state := .languageSwitch, inputBuffer := [], isCollectionComplete := false,
    expectedLength := 0 }

/-- `DTMFHelper.LanguageMappings`: digit 1 is spanish, digit 2 is english. -/
def languageMappings (digit : Char) : Option String :=
  if digit = '1' then some "spanish"
  else if digit = '2' then some "english"
  else none

/-- `_processLanguageSwitch`: single-digit mode; every digit (mapped or not)
clears the buffer and marks collection complete. -/
def DTMFHelper.processLanguageSwitch (h : DTMFHelper) (digit : Char) :
    DTMFHelper × String :=
  match languageMappings digit with
  | some language =>
      ({ h with inputBuffer := [], isCollectionComplete := true },
       "The caller has requested to switch to " ++ language ++ ".")
  | none =>
      ({ h with inputBuffer := [], isCollectionComplete := true },
       "Invalid language selection. Press 1 for Spanish or 2 for English.")

/-- `_processPhoneNumber`: accumulate mode, default expected length 10
(`this.expectedLength || 10`); formats the ten digits as (XXX) XXX-XXXX via
`slice(0,3)`, `slice(3,6)`, `slice(6)`. -/
def DTMFHelper.processPhoneNumber (h : DTMFHelper) : DTMFHelper × String :=
  let expectedLength := if h.expectedLength = 0 then 10 else h.expectedLength
  if h.inputBuffer.length < expectedLength then
    ({ h with isCollectionComplete := false },
     "Collecting phone number... (" ++ toString h.inputBuffer.length ++ "/" ++
       toString expectedLength ++ " digits)")
  else if h.inputBuffer.length = expectedLength then
    let phoneNumber := h.inputBuffer
    let formatted := "(" ++ String.mk (phoneNumber.take 3) ++ ") " ++
      String.mk ((phoneNumber.drop 3).take 3) ++ "-" ++
      String.mk (phoneNumber.drop 6)
    ({ h with inputBuffer := [], isCollectionComplete := true },
     "Phone number received: " ++ formatted)
  else
    ({ h with inputBuffer := [], isCollectionComplete := true },
     "Phone number input error. Too many digits entered.")

/-- `_processDateOfBirth`: accumulate mode, fixed expected length 8, formatted
MM/DD/YYYY via `slice(0,2)`, `slice(2,4)`, `slice(4)`. -/
def DTMFHelper.processDateOfBirth (h : DTMFHelper) : DTMFHelper × String :=
  let expectedLength := 8
  if h.inputBuffer.length < expectedLength then
    ({ h with isCollectionComplete := false },
     "Collecting date of birth... (" ++ toString h.inputBuffer.length ++ "/" ++
       toString expectedLength ++ " digits)")
  else if h.inputBuffer.length = expectedLength then
    let dob := h.inputBuffer
    let formatted := String.mk (dob.take 2) ++ "/" ++
      String.mk ((dob.drop 2).take 2) ++ "/" ++ String.mk (dob.drop 4)
    ({ h with inputBuffer := [], isCollectionComplete := true },
     "Date of birth received: " ++ formatted)
  else
    ({ h with inputBuffer := [], isCollectionComplete := true },
     "Date of birth input error. Too many digits entered.")

/-- `_processConfirmation`: single-digit mode; buffer cleared and collection
marked complete for every digit, mapped (1 or 2) or not. -/
def DTMFHelper.processConfirmation (h : DTMFHelper) (digit : Char) :
    DTMFHelper × String :=
  let h := { h with inputBuffer := [], isCollectionComplete := true }
  if digit = '1' then (h, "The caller confirmed with \x27yes\x27.")
  else if digit = '2' then (h, "The caller responded with \x27no\x27.")
  else (h, "Invalid confirmation. Press 1 for yes or 2 for no.")

/-- `_processMenuSelection`: single-digit mode. -/
def DTMFHelper.processMenuSelection (h : DTMFHelper) (digit : Char) :
    DTMFHelper × String :=
  ({ h with inputBuffer := [], isCollectionComplete := true },
   "Menu option " ++ String.mk [digit] ++ " selected by the caller.")

/-- `processDTMF(digit)`: reset the completion flag, append the digit to the
buffer, then dispatch on the current mode. -/
def DTMFHelper.processDTMF (h : DTMFHelper) (digit : Char) :
    DTMFHelper × String :=
  let h := { h with isCollectionComplete := false,
                    inputBuffer := h.inputBuffer ++ [digit] }
  match h.state with
  | .languageSwitch => h.processLanguageSwitch digit
  | .phoneNumber => h.processPhoneNumber
  | .dateOfBirth => h.processDateOfBirth
  | .confirmation => h.processConfirmation digit
  | .menuSelection => h.processMenuSelection digit

/-- `setState(newState, options)`: switch mode, clearing the buffer and flags;
`options.expectedLength || 0` becomes the new expected length. -/
def DTMFHelper.setState (_h : DTMFHelper) (newState : DTMFState)
    (expectedLength : Nat) : DTMFHelper :=
  { state := newState, inputBuffer := [], isCollectionComplete := false,
    expectedLength := expectedLength }

/-- `resetState()`: return to the configured base mode (`languageSwitch`). -/
def DTMFHelper.resetState (_h : DTMFHelper) : DTMFHelper := DTMFHelper.init

/-- `isComplete()`. -/
def DTMFHelper.isComplete (h : DTMFHelper) : Bool := h.isCollectionComplete

/-- Feed a sequence of digits one `processDTMF` call at a time, collecting the
returned result messages in order. -/
def DTMFHelper.feed (h : DTMFHelper) : List Char → DTMFHelper × List String
  | [] => (h, [])
  | d :: rest =>
      let r := h.processDTMF d
      let rr := r.1.feed rest
      (rr.1, r.2 :: rr.2)

/-- The DTMF machine freshly placed in phone-number mode with the default
expected length (0, which `_processPhoneNumber` treats as 10). -/
def phoneModeStart : DTMFHelper := DTMFHelper.init.setState .phoneNumber 0

/-- Spec-side phone formatting: digits grouped 3/3/4 as (DDD) DDD-DDDD. -/
def specPhoneFormat (ds : List Char) : String :=
  "(" ++ String.mk (ds.take 3) ++ ") " ++ String.mk ((ds.drop 3).take 3) ++
    "-" ++ String.mk (ds.drop 6)

/-- The session controller's dtmf-case body after the service guard
(`case 'dtmf'` in `websocketService.js`): process the digit; if the machine
reports completion, forward `DTMF INPUT: <result>` to the Adapter as a system
message and reset the machine to its base mode (timer effects are modelled
with the connection dispatch below). -/
def handleDtmfDigit (h : DTMFHelper) (digit : Char) :
    DTMFHelper × Option String :=
  let r := h.processDTMF digit
  if r.1.isComplete then (r.1.resetState, some ("DTMF INPUT: " ++ r.2))
  else (r.1, none)

theorem DTMFHelper.feed_length (h : DTMFHelper) (ds : List Char) :
    (h.feed ds).2.length = ds.length := by
  induction ds generalizing h with
  | nil => rfl
  | cons d rest ih => simp [DTMFHelper.feed, ih]

theorem DTMFHelper.feed_append (h : DTMFHelper) (xs ys : List Char) :
    h.feed (xs ++ ys) =
      ((((h.feed xs).1).feed ys).1, (h.feed xs).2 ++ (((h.feed xs).1).feed ys).2) := by
  induction xs generalizing h with
  | nil => simp [DTMFHelper.feed]
  | cons d rest ih => simp [DTMFHelper.feed, ih]

/-- One `feed` step unfolded. -/
theorem DTMFHelper.feed_cons (h : DTMFHelper) (d : Char) (rest : List Char) :
    h.feed (d :: rest) =
      (((h.processDTMF d).1.feed rest).1,
       (h.processDTMF d).2 :: ((h.processDTMF d).1.feed rest).2) := rfl

/-- `processDTMF` in phone-number mode dispatches to `_processPhoneNumber`
after appending the digit and resetting the completion flag. -/
theorem processDTMF_phone (buf : List Char) (cc : Bool) (d : Char) :
    DTMFHelper.processDTMF ⟨.phoneNumber, buf, cc, 0⟩ d =
      DTMFHelper.processPhoneNumber ⟨.phoneNumber, buf ++ [d], false, 0⟩ := rfl

/-- `_processPhoneNumber` below the expected length: incomplete progress. -/
theorem processPhoneNumber_lt (buf : List Char) (cc : Bool)
    (hlt : buf.length < 10) :
    DTMFHelper.processPhoneNumber ⟨.phoneNumber, buf, cc, 0⟩ =
      (⟨.phoneNumber, buf, false, 0⟩,
       "Collecting phone number... (" ++ toString buf.length ++ "/" ++
         toString (10 : Nat) ++ " digits)") := by
  simp only [DTMFHelper.processPhoneNumber]
  rw [if_pos]
  · rfl
  · simpa using hlt

/-- `_processPhoneNumber` at exactly the expected length: completion with the
formatted value and a cleared buffer. -/
theorem processPhoneNumber_eq (buf : List Char) (cc : Bool)
    (heq : buf.length = 10) :
    DTMFHelper.processPhoneNumber ⟨.phoneNumber, buf, cc, 0⟩ =
      (⟨.phoneNumber, [], true, 0⟩,
       "Phone number received: " ++ specPhoneFormat buf) := by
  simp only [DTMFHelper.processPhoneNumber, specPhoneFormat]
  rw [if_neg, if_pos]
  · simpa using heq
  · simp [heq]

/-- Feeding digits into phone-number mode until the buffer reaches length 10
completes with the formatted number and clears the buffer. -/
theorem phoneFeed_complete (ds : List Char) (h : DTMFHelper)
    (hs : h.state = .phoneNumber) (he : h.expectedLength = 0)
    (hc : h.inputBuffer.length + ds.length = 10) (hne : ds ≠ []) :
    (h.feed ds).1 = (⟨.phoneNumber, [], true, 0⟩ : DTMFHelper) ∧
    (h.feed ds).2.getLast? =
      some ("Phone number received: " ++ specPhoneFormat (h.inputBuffer ++ ds)) := by
  induction ds generalizing h with
  | nil => exact absurd rfl hne
  | cons d rest ih =>
    obtain ⟨st, buf, cc, el⟩ := h
    simp only at hs he hc
    subst hs; subst he
    rcases rest with _ | ⟨e, rest'⟩
    · have heq : (buf ++ [d]).length = 10 := by simp at hc ⊢; omega
      rw [DTMFHelper.feed_cons, processDTMF_phone, processPhoneNumber_eq _ _ heq]
      exact ⟨rfl, rfl⟩
    · have hlt : (buf ++ [d]).length < 10 := by simp at hc ⊢; omega
      rw [DTMFHelper.feed_cons, processDTMF_phone, processPhoneNumber_lt _ _ hlt]
      obtain ⟨ih1, ih2⟩ := ih ⟨.phoneNumber, buf ++ [d], false, 0⟩ rfl rfl
        (by simp at hc ⊢; omega) (by simp)
      refine ⟨ih1, ?_⟩
      rw [DTMFHelper.feed_cons] at ih2 ⊢
      rw [List.getLast?_cons_cons, ih2]
      simp

/-- Feeding a single digit into the completed-and-cleared phone-mode machine
starts a fresh collection: incomplete, with only that digit buffered. -/
theorem phoneFeed_eleventh (d : Char) :
    (⟨.phoneNumber, [], true, 0⟩ : DTMFHelper).feed [d] =
      (⟨.phoneNumber, [d], false, 0⟩,
       ["Collecting phone number... (1/10 digits)"]) := by
  rw [DTMFHelper.feed_cons, processDTMF_phone, processPhoneNumber_lt _ _ (by simp)]
  simp [DTMFHelper.feed]
  rfl

/-- C3, counterexample to the claim as stated: feeding the 11 digits
"01234567890" into a fresh phone-number-mode machine does NOT leave an error
completion with a cleared buffer; the 11th digit begins a fresh collection
(machine incomplete, buffer "0", progress message), because the completion at
the 10th digit already cleared the buffer, so the too-many-digits branch of
`_processPhoneNumber` is never reached. -/
theorem C3_counterexample :
    ((phoneModeStart.feed ("01234567890".toList)).1.isCollectionComplete = false ∧
     (phoneModeStart.feed ("01234567890".toList)).1.inputBuffer = ['0'] ∧
     (phoneModeStart.feed ("01234567890".toList)).2.getLast? =
       some "Collecting phone number... (1/10 digits)") ∧
    ¬ ((phoneModeStart.feed ("01234567890".toList)).1.isCollectionComplete = true ∧
       (phoneModeStart.feed ("01234567890".toList)).1.inputBuffer = [] ∧
       (phoneModeStart.feed ("01234567890".toList)).2.getLast? =
         some "Phone number input error. Too many digits entered.") := by
  refine ⟨⟨rfl, rfl, rfl⟩, ?_⟩
  intro hcon
  have hfalse : (phoneModeStart.feed
      ("01234567890".toList)).1.isCollectionComplete = false := rfl
  rw [hcon.1] at hfalse
  exact Bool.noConfusion hfalse

/-- C3 (amended): in phone-number mode with expected length 10, any 10 digits
fed one at a time from an empty buffer complete with the result embedding the
digits formatted (DDD) DDD-DDDD and the buffer cleared; an 11th digit fed to
the same machine starts a NEW collection and yields an incomplete progress
message with the digit buffered (not an error completion). -/
theorem C3_phone_ten_digits (ds : List Char) (hlen : ds.length = 10) (d : Char) :
    ((phoneModeStart.feed ds).1.isCollectionComplete = true ∧
     (phoneModeStart.feed ds).1.inputBuffer = [] ∧
     (phoneModeStart.feed ds).2.getLast? =
       some ("Phone number received: " ++ specPhoneFormat ds)) ∧
    ((phoneModeStart.feed (ds ++ [d])).1.isCollectionComplete = false ∧
     (phoneModeStart.feed (ds ++ [d])).1.inputBuffer = [d] ∧
     (phoneModeStart.feed (ds ++ [d])).2.getLast? =
       some "Collecting phone number... (1/10 digits)") := by
  have hne : ds ≠ [] := by intro hnil; rw [hnil] at hlen; simp at hlen
  have hmain := phoneFeed_complete ds phoneModeStart rfl rfl
    (by simpa [phoneModeStart, DTMFHelper.setState] using hlen) hne
  have happ := DTMFHelper.feed_append phoneModeStart ds [d]
  rw [hmain.1, phoneFeed_eleventh d] at happ
  have hfst : (phoneModeStart.feed (ds ++ [d])).1 =
      (⟨.phoneNumber, [d], false, 0⟩ : DTMFHelper) := by rw [happ]
  have hsnd : (phoneModeStart.feed (ds ++ [d])).2 =
      (phoneModeStart.feed ds).2 ++
        ["Collecting phone number... (1/10 digits)"] := by rw [happ]
  refine ⟨⟨?_, ?_, ?_⟩, ?_, ?_, ?_⟩
  · rw [hmain.1]
  · rw [hmain.1]
  · simpa [phoneModeStart, DTMFHelper.setState] using hmain.2
  · rw [hfst]
  · rw [hfst]
  · rw [hsnd, List.getLast?_append_cons]
    rfl

/-- C3 witness: the spec scenario digits "4151115555" complete as
"(415) 111-5555", and an 11th digit "0" restarts collection. -/
theorem C3_phone_ten_digits_witness :
    ((phoneModeStart.feed ("4151115555".toList)).1.isCollectionComplete = true ∧
     (phoneModeStart.feed ("4151115555".toList)).1.inputBuffer = [] ∧
     (phoneModeStart.feed ("4151115555".toList)).2.getLast? =
       some ("Phone number received: " ++ specPhoneFormat ("4151115555".toList))) ∧
    ((phoneModeStart.feed ("4151115555".toList ++ ['0'])).1.isCollectionComplete = false ∧
     (phoneModeStart.feed ("4151115555".toList ++ ['0'])).1.inputBuffer = ['0'] ∧
     (phoneModeStart.feed ("4151115555".toList ++ ['0'])).2.getLast? =
       some "Collecting phone number... (1/10 digits)") :=
  C3_phone_ten_digits ("4151115555".toList) rfl '0'

/-- The spec formatting of "4151115555" is the literal "(415) 111-5555". -/
theorem specPhoneFormat_example :
    specPhoneFormat ("4151115555".toList) = "(415) 111-5555" := rfl

/-- C10: in the single-digit-immediate modes (confirmation and
language-switch), processing ANY digit — mapped or not — yields a terminal
completion with the buffer cleared; the session controller then forwards the
result message prefixed "DTMF INPUT: " to the backend and resets the machine
to the base mode, exactly as for a valid selection; and an unmapped digit in
confirmation mode yields the Invalid-confirmation text. -/
theorem C10_single_digit_modes (h : DTMFHelper) (d : Char)
    (hm : h.state = .confirmation ∨ h.state = .languageSwitch) :
    (h.processDTMF d).1.isCollectionComplete = true ∧
    (h.processDTMF d).1.inputBuffer = [] ∧
    handleDtmfDigit h d =
      (DTMFHelper.init, some ("DTMF INPUT: " ++ (h.processDTMF d).2)) ∧
    (h.state = .confirmation → d ≠ '1' → d ≠ '2' →
      (h.processDTMF d).2 =
        "Invalid confirmation. Press 1 for yes or 2 for no.") := by
  obtain ⟨st, buf, cc, el⟩ := h
  rcases hm with hm | hm <;> simp only at hm <;> subst hm
  · refine ⟨?_, ?_, ?_, ?_⟩ <;>
      simp only [DTMFHelper.processDTMF, DTMFHelper.processConfirmation,
        handleDtmfDigit, DTMFHelper.isComplete, DTMFHelper.resetState] <;>
      split_ifs <;> simp_all [DTMFHelper.init]
  · refine ⟨?_, ?_, ?_, ?_⟩ <;>
      simp only [DTMFHelper.processDTMF, DTMFHelper.processLanguageSwitch,
        handleDtmfDigit, DTMFHelper.isComplete, DTMFHelper.resetState,
        languageMappings] <;>
      split_ifs <;> simp_all [DTMFHelper.init]

/-- C10 witness: digit 5 in confirmation mode completes with cleared buffer,
is forwarded as a DTMF result, and resets the machine to base mode. -/
theorem C10_single_digit_modes_witness :
    ((DTMFHelper.init.setState .confirmation 0).processDTMF '5').1.isCollectionComplete = true ∧
    ((DTMFHelper.init.setState .confirmation 0).processDTMF '5').1.inputBuffer = [] ∧
    handleDtmfDigit (DTMFHelper.init.setState .confirmation 0) '5' =
      (DTMFHelper.init, some ("DTMF INPUT: " ++
        ((DTMFHelper.init.setState .confirmation 0).processDTMF '5').2)) ∧
    ((DTMFHelper.init.setState .confirmation 0).state = .confirmation →
      '5' ≠ '1' → '5' ≠ '2' →
      ((DTMFHelper.init.setState .confirmation 0).processDTMF '5').2 =
        "Invalid confirmation. Press 1 for yes or 2 for no.") :=
  C10_single_digit_modes (DTMFHelper.init.setState .confirmation 0) '5'
    (Or.inl rfl)

/-! ## State store (`src/services/stateManager.js`) -/

/-- The snapshot persisted per session (`getState()` in
`azureAgentService.js`): session id, thread id and save timestamp
(milliseconds). -/
structure AgentServiceState where
  sessionId : String
  threadId : Option String
  timestamp : Int
deriving DecidableEq, Repr

/-- `StateManager.STATE_TIMEOUT`: 30 minutes in milliseconds. -/
def STATE_TIMEOUT : Int := 30 * 60 * 1000

/-- The `StateManager.sessionStates` map, modelled extensionally. -/
def SessionStates := String → Option AgentServiceState

/-- `cleanupOldStates()`: evict every entry whose age strictly exceeds the
timeout (`age > STATE_TIMEOUT`). -/
def cleanupOldStates (m : SessionStates) (now : Int) : SessionStates :=
  fun sessionId =>
    match m sessionId with
    | some st => if now - st.timestamp > STATE_TIMEOUT then none else some st
    | none => none

/-- `saveState(sessionId, state)`: stamp the current time, overwrite any prior
entry for the id, then opportunistically clean up expired entries. -/
def saveState (m : SessionStates) (sessionId : String) (st : AgentServiceState)
    (now : Int) : SessionStates :=
  cleanupOldStates
    (fun id => if id = sessionId then some { st with timestamp := now }
      else m id) now

/-- `restoreState(sessionId)`: return the entry if present and not expired;
when its age strictly exceeds the timeout, delete it and return null. -/
def restoreState (m : SessionStates) (sessionId : String) (now : Int) :
    SessionStates × Option AgentServiceState :=
  match m sessionId with
  | none => (m, none)
  | some st =>
      if now - st.timestamp > STATE_TIMEOUT then
        ((fun id => if id = sessionId then none else m id), none)
      else (m, some st)

/-- `deleteState(sessionId)`: explicit removal. -/
def deleteState (m : SessionStates) (sessionId : String) : SessionStates :=
  fun id => if id = sessionId then none else m id

/-- C4: over any state-store contents (hence after any sequence of
save/restore/delete operations), `restore` never returns a snapshot whose age
exceeds the 30-minute TTL; a strictly-too-old entry is evicted and absent is
returned; an entry of age exactly 30:00 is kept and returned (inclusive
boundary); and the eviction boundary of lazy `restore` coincides with the
opportunistic `cleanupOldStates` eviction that `save` performs. -/
theorem C4_ttl_invariant (m : SessionStates) (sessionId : String) (now : Int)
    (st : AgentServiceState) :
    ((restoreState m sessionId now).2 = some st →
      now - st.timestamp ≤ STATE_TIMEOUT) ∧
    (m sessionId = some st → now - st.timestamp > STATE_TIMEOUT →
      (restoreState m sessionId now).2 = none ∧
      (restoreState m sessionId now).1 sessionId = none) ∧
    (m sessionId = some st → now - st.timestamp = STATE_TIMEOUT →
      (restoreState m sessionId now).2 = some st ∧
      cleanupOldStates m now sessionId = some st) ∧
    (m sessionId = some st →
      ((restoreState m sessionId now).2 = none ↔
        cleanupOldStates m now sessionId = none)) ∧
    (∀ sid' st', sessionId ≠ sid' →
      saveState m sid' st' now sessionId = cleanupOldStates m now sessionId) := by
  refine ⟨?_, ?_, ?_, ?_, ?_⟩
  · intro hres
    cases hm : m sessionId with
    | none => simp [restoreState, hm] at hres
    | some st' =>
        by_cases hage : now - st'.timestamp > STATE_TIMEOUT
        · simp [restoreState, hm, hage] at hres
        · simp [restoreState, hm, hage] at hres
          subst hres; omega
  · intro hm hage
    simp [restoreState, hm, hage]
  · intro hm hage
    have hnot : ¬ (now - st.timestamp > STATE_TIMEOUT) := by omega
    simp [restoreState, cleanupOldStates, hm, hnot]
  · intro hm
    by_cases hage : now - st.timestamp > STATE_TIMEOUT <;>
      simp [restoreState, cleanupOldStates, hm, hage]
  · intro sid' st' hne
    simp [saveState, cleanupOldStates, hne]

/-- An example store holding one snapshot for session CA1 saved at time 0. -/
def exampleSnapshot : AgentServiceState := ⟨"CA1", some "thread-abc", 0⟩

/-- Example store contents: only CA1 is present. -/
def exampleStates : SessionStates :=
  fun id => if id = "CA1" then some exampleSnapshot else none

/-- C4 witness: at age exactly 30:00 the snapshot is still returned; one
millisecond later restore evicts it and returns absent. -/
theorem C4_ttl_invariant_witness :
    ((restoreState exampleStates "CA1" (STATE_TIMEOUT + 1)).2 = none ∧
     (restoreState exampleStates "CA1" (STATE_TIMEOUT + 1)).1 "CA1" = none) ∧
    ((restoreState exampleStates "CA1" STATE_TIMEOUT).2 = some exampleSnapshot ∧
     cleanupOldStates exampleStates STATE_TIMEOUT "CA1" = some exampleSnapshot) :=
  ⟨(C4_ttl_invariant exampleStates "CA1" (STATE_TIMEOUT + 1)
      exampleSnapshot).2.1 rfl (by decide),
   (C4_ttl_invariant exampleStates "CA1" STATE_TIMEOUT
      exampleSnapshot).2.2.1 rfl (by decide)⟩

/-! ## Idle timer (`src/services/idleTimer.js`) -/

/-- Fields of the `IdleTimer` class: the handle of the pending `setTimeout`
(if any), the configured duration, and the `isActive` flag. -/
structure IdleTimerState where
  timer : Option Nat
  timeoutDuration : Nat
  isActive : Bool
deriving DecidableEq, Repr

/-- World of one idle timer: wall clock, the live (scheduled, not yet fired,
not cancelled) timeouts as (handle, absolute fire time) pairs, a fresh-handle
counter, the timer object, the bound DTMF machine, and the times at which the
`idleTimeout` event has been emitted. -/
structure TimerWorld where
  now : Nat
  sched : List (Nat × Nat)
  nextId : Nat
  it : IdleTimerState
  dtmf : DTMFHelper
  emitted : List Nat
deriving DecidableEq, Repr

/-- The `IdleTimer` constructor inside a fresh world at time 0. -/
def TimerWorld.init (d : Nat) (dh : DTMFHelper) : TimerWorld :=
  ⟨0, [], 0, ⟨none, d, false⟩, dh, []⟩

/-- `clear()`: if a timeout handle is held, `clearTimeout` it (cancelling the
pending timeout if still live), null the handle and drop the active flag. -/
def TimerWorld.clear (w : TimerWorld) : TimerWorld :=
  match w.it.timer with
  | some i =>
      { w with sched := w.sched.filter (fun p => p.1 != i),
               it := { w.it with timer := none, isActive := false } }
  | none => w

/-- `start()`: clear any existing timer, set the active flag, and schedule one
fresh timeout to fire `timeoutDuration` from now. -/
def TimerWorld.start (w : TimerWorld) : TimerWorld :=
  let w := w.clear
  { w with sched := w.sched ++ [(w.nextId, w.now + w.it.timeoutDuration)],
           it := { w.it with timer := some w.nextId, isActive := true },
           nextId := w.nextId + 1 }

/-- `restart()`: convenience alias for `start()`. -/
def TimerWorld.restart (w : TimerWorld) : TimerWorld := w.start

/-- `setDuration(newDuration)`: update the duration; if currently active,
re-arm immediately with the new value. -/
def TimerWorld.setDuration (w : TimerWorld) (d : Nat) : TimerWorld :=
  let w := { w with it := { w.it with timeoutDuration := d } }
  if w.it.isActive then w.start else w

/-- The `setTimeout` callback body in `start()`: reset the bound DTMF machine,
emit the `idleTimeout` event, drop the active flag (the stored handle is not
nulled by the callback); the fired timeout leaves the live set. -/
def TimerWorld.fireOne (w : TimerWorld) (p : Nat × Nat) : TimerWorld :=
  { w with sched := w.sched.filter (fun q => q.1 != p.1),
           dtmf := w.dtmf.resetState,
           emitted := w.emitted ++ [p.2],
           it := { w.it with isActive := false } }

/-- Earliest timeout due at or before time `t`, if any. -/
def earliestDue (t : Nat) (l : List (Nat × Nat)) : Option (Nat × Nat) :=
  l.foldl (fun acc p =>
    if p.2 ≤ t then
      match acc with
      | none => some p
      | some q => if p.2 < q.2 then some p else some q
    else acc) none

/-- Fire due timeouts one at a time, earliest first, with fuel. -/
def TimerWorld.advanceAux : Nat → Nat → TimerWorld → TimerWorld
  | 0, t, w => { w with now := t }
  | fuel + 1, t, w =>
      match earliestDue t w.sched with
      | none => { w with now := t }
      | some p => TimerWorld.advanceAux fuel t (w.fireOne p)

/-- Advance wall-clock time to `t`, firing every timeout due by then. -/
def TimerWorld.advanceTo (t : Nat) (w : TimerWorld) : TimerWorld :=
  TimerWorld.advanceAux w.sched.length t w

/-- The externally invocable idle-timer operations. -/
inductive TimerOp where
  | start
  | restart
  | clear
  | setDuration (d : Nat)
deriving DecidableEq, Repr

/-- Apply one timer operation. -/
def TimerWorld.applyOp (w : TimerWorld) : TimerOp → TimerWorld
  | .start => w.start
  | .restart => w.restart
  | .clear => w.clear
  | .setDuration d => w.setDuration d

/-- Run a time-stamped schedule of timer operations; before each operation the
clock advances to its time, firing due timeouts. -/
def TimerWorld.run (w : TimerWorld) : List (Nat × TimerOp) → TimerWorld
  | [] => w
  | (t, op) :: rest => (((w.advanceTo t).applyOp op)).run rest

/-- Invariant: at most one live scheduled timeout, and when there is one its
handle is the one stored in the timer object. -/
def TimerInv (w : TimerWorld) : Prop :=
  w.sched = [] ∨ ∃ i ft, w.sched = [(i, ft)] ∧ w.it.timer = some i

theorem timerInv_clear_sched (w : TimerWorld) (hw : TimerInv w) :
    (w.clear).sched = [] := by
  rcases hw with hnil | ⟨i, ft, hs, ht⟩
  · unfold TimerWorld.clear
    cases hti : w.it.timer <;> simp [hnil, hti]
  · unfold TimerWorld.clear
    rw [ht]
    simp [hs]

theorem timerInv_clear (w : TimerWorld) (hw : TimerInv w) :
    TimerInv w.clear :=
  Or.inl (timerInv_clear_sched w hw)

theorem timerInv_start (w : TimerWorld) (hw : TimerInv w) :
    TimerInv w.start := by
  unfold TimerWorld.start
  refine Or.inr ⟨(w.clear).nextId, (w.clear).now + (w.clear).it.timeoutDuration, ?_, rfl⟩
  simp [timerInv_clear_sched w hw]

theorem timerInv_setDuration (w : TimerWorld) (d : Nat) (hw : TimerInv w) :
    TimerInv (w.setDuration d) := by
  unfold TimerWorld.setDuration
  have hw' : TimerInv { w with it := { w.it with timeoutDuration := d } } := by
    rcases hw with hnil | ⟨i, ft, hs, ht⟩
    · exact Or.inl hnil
    · exact Or.inr ⟨i, ft, hs, ht⟩
  simp only
  split
  · exact timerInv_start _ hw'
  · exact hw'

theorem timerInv_fireOne (w : TimerWorld) (p : Nat × Nat) (hw : TimerInv w) :
    TimerInv (w.fireOne p) := by
  rcases hw with hnil | ⟨i, ft, hs, ht⟩
  · exact Or.inl (by simp [TimerWorld.fireOne, hnil])
  · unfold TimerWorld.fireOne
    by_cases hip : i = p.1
    · exact Or.inl (by simp [hs, hip])
    · refine Or.inr ⟨i, ft, ?_, ht⟩
      simp [hs, hip]

theorem timerInv_advanceAux (fuel t : Nat) (w : TimerWorld) (hw : TimerInv w) :
    TimerInv (TimerWorld.advanceAux fuel t w) := by
  induction fuel generalizing w with
  | zero =>
      rcases hw with hnil | ⟨i, ft, hs, ht⟩
      · exact Or.inl (by simp [TimerWorld.advanceAux, hnil])
      · exact Or.inr ⟨i, ft, by simp [TimerWorld.advanceAux, hs], ht⟩
  | succ n ih =>
      unfold TimerWorld.advanceAux
      cases hdue : earliestDue t w.sched with
      | none =>
          rcases hw with hnil | ⟨i, ft, hs, ht⟩
          · exact Or.inl (by simp [hnil])
          · exact Or.inr ⟨i, ft, by simp [hs], ht⟩
      | some p => exact ih (w.fireOne p) (timerInv_fireOne w p hw)

theorem timerInv_advanceTo (t : Nat) (w : TimerWorld) (hw : TimerInv w) :
    TimerInv (w.advanceTo t) :=
  timerInv_advanceAux _ t w hw

theorem timerInv_run (w : TimerWorld) (ops : List (Nat × TimerOp))
    (hw : TimerInv w) : TimerInv (w.run ops) := by
  induction ops generalizing w with
  | nil => exact hw
  | cons top rest ih =>
      obtain ⟨t, op⟩ := top
      refine ih _ ?_
      have h1 := timerInv_advanceTo t w hw
      cases op with
      | start => exact timerInv_start _ h1
      | restart => exact timerInv_start _ h1
      | clear => exact timerInv_clear _ h1
      | setDuration d => exact timerInv_setDuration _ d h1

theorem advanceTo_nil (w : TimerWorld) (t : Nat) (hs : w.sched = []) :
    w.advanceTo t = { w with now := t } := by
  simp [TimerWorld.advanceTo, hs, TimerWorld.advanceAux]

theorem advanceTo_notdue (w : TimerWorld) (i ft t : Nat)
    (hs : w.sched = [(i, ft)]) (hd : ¬ ft ≤ t) :
    w.advanceTo t = { w with now := t } := by
  simp [TimerWorld.advanceTo, hs, TimerWorld.advanceAux, earliestDue, hd]

theorem advanceTo_fire (w : TimerWorld) (i ft t : Nat)
    (hs : w.sched = [(i, ft)]) (hd : ft ≤ t) :
    w.advanceTo t =
      { w with now := t, sched := [], dtmf := w.dtmf.resetState,
               emitted := w.emitted ++ [ft],
               it := { w.it with isActive := false } } := by
  simp [TimerWorld.advanceTo, hs, TimerWorld.advanceAux, earliestDue, hd,
    TimerWorld.fireOne]

/-- C5: (1) after any schedule of start/restart/clear/setDuration operations,
at most one countdown is pending at any instant; (2) a timer armed at time t0
with duration d and neither cleared nor restarted fires its timeout exactly
once, at t0 + d, resetting the bound DTMF machine, and nothing remains
scheduled afterwards; (3) restarting an armed timer at time t1 before expiry
defers the single firing to t1 + d. -/
theorem C5_idle_timer :
    (∀ (d : Nat) (dh : DTMFHelper) (ops : List (Nat × TimerOp)),
      ((TimerWorld.init d dh).run ops).sched.length ≤ 1) ∧
    (∀ (d : Nat) (dh : DTMFHelper) (t0 T : Nat), t0 + d ≤ T →
      ((((TimerWorld.init d dh).advanceTo t0).start).advanceTo T).emitted =
        [t0 + d] ∧
      ((((TimerWorld.init d dh).advanceTo t0).start).advanceTo T).dtmf =
        dh.resetState ∧
      ((((TimerWorld.init d dh).advanceTo t0).start).advanceTo T).sched = []) ∧
    (∀ (d : Nat) (dh : DTMFHelper) (t0 t1 T : Nat),
      t0 ≤ t1 → t1 < t0 + d → t1 + d ≤ T →
      (((((((TimerWorld.init d dh).advanceTo t0).start).advanceTo
          t1).restart).advanceTo T).emitted = [t1 + d] ∧
       ((((((TimerWorld.init d dh).advanceTo t0).start).advanceTo
          t1).restart).advanceTo T).sched = [])) := by
  refine ⟨?_, ?_, ?_⟩
  · intro d dh ops
    have hinv := timerInv_run (TimerWorld.init d dh) ops (Or.inl rfl)
    rcases hinv with hnil | ⟨i, ft, hs, _⟩
    · rw [hnil]; simp
    · rw [hs]; simp
  · intro d dh t0 T ht
    have h0 : (TimerWorld.init d dh).advanceTo t0 =
        (⟨t0, [], 0, ⟨none, d, false⟩, dh, []⟩ : TimerWorld) := rfl
    have h1 : (⟨t0, [], 0, ⟨none, d, false⟩, dh, []⟩ : TimerWorld).start =
        (⟨t0, [(0, t0 + d)], 1, ⟨some 0, d, true⟩, dh, []⟩ : TimerWorld) := rfl
    have h2 := advanceTo_fire
      (⟨t0, [(0, t0 + d)], 1, ⟨some 0, d, true⟩, dh, []⟩ : TimerWorld)
      0 (t0 + d) T rfl ht
    rw [h0, h1, h2]
    exact ⟨rfl, rfl, rfl⟩
  · intro d dh t0 t1 T _ h01 hT
    have h0 : (TimerWorld.init d dh).advanceTo t0 =
        (⟨t0, [], 0, ⟨none, d, false⟩, dh, []⟩ : TimerWorld) := rfl
    have h1 : (⟨t0, [], 0, ⟨none, d, false⟩, dh, []⟩ : TimerWorld).start =
        (⟨t0, [(0, t0 + d)], 1, ⟨some 0, d, true⟩, dh, []⟩ : TimerWorld) := rfl
    have hnd : ¬ (t0 + d ≤ t1) := by omega
    have h2 := advanceTo_notdue
      (⟨t0, [(0, t0 + d)], 1, ⟨some 0, d, true⟩, dh, []⟩ : TimerWorld)
      0 (t0 + d) t1 rfl hnd
    have h3 : (⟨t1, [(0, t0 + d)], 1, ⟨some 0, d, true⟩, dh, []⟩ :
        TimerWorld).restart =
        (⟨t1, [(1, t1 + d)], 2, ⟨some 1, d, true⟩, dh, []⟩ : TimerWorld) := rfl
    have h4 := advanceTo_fire
      (⟨t1, [(1, t1 + d)], 2, ⟨some 1, d, true⟩, dh, []⟩ : TimerWorld)
      1 (t1 + d) T rfl hT
    rw [h0, h1, h2, h3, h4]
    exact ⟨rfl, rfl⟩

/-- C5 witness: armed at t=0 with duration 10 and left alone, the timeout
fires once at 10; restarted at t=5, it instead fires once at 15. -/
theorem C5_idle_timer_witness :
    ((TimerWorld.init 10 DTMFHelper.init).run
      [(0, TimerOp.start), (5, TimerOp.restart)]).sched.length ≤ 1 ∧
    ((((TimerWorld.init 10 DTMFHelper.init).advanceTo 0).start).advanceTo
      100).emitted = [0 + 10] ∧
    ((((((TimerWorld.init 10 DTMFHelper.init).advanceTo 0).start).advanceTo
      5).restart).advanceTo 100).emitted = [5 + 10] :=
  ⟨C5_idle_timer.1 10 DTMFHelper.init [(0, TimerOp.start), (5, TimerOp.restart)],
   (C5_idle_timer.2.1 10 DTMFHelper.init 0 100 (by decide)).1,
   (C5_idle_timer.2.2 10 DTMFHelper.init 0 5 100 (by decide) (by decide)
     (by decide)).1⟩

/-! ## Adapter events and outward protocol messages
(events of `azureAgentService.js`, consumed by `setupEventListeners` in
`websocketService.js`) -/

/-- Events emitted by the `AzureAgentService` event emitter. -/
inductive AgentEvent where
  | textDelta (token : String)
  | textComplete (content : String)
  | thinking
  | toolCall (name : String) (arguments : String)
  | languageSwitch (targetLanguage : String)
  | handoff (handoffData : String)
  | errorEvent (message : String)
  | runComplete
deriving DecidableEq, Repr

/-- Outward Conversation Relay protocol frames sent over the transport. -/
inductive OutMessage where
  | text (token : String) (last : Bool)
  | language (ttsLanguage : String) (transcriptionLanguage : String)
  | endSession (handoffData : String)
  | errorMsg (message : String)
deriving DecidableEq, Repr

/-- One entry of `config.languages`; only `locale_code` is read by the
controller's languageSwitch listener. -/
structure LanguageOption where
  locale_code : String
deriving DecidableEq, Repr

/-- `config.languages` (`languageOptions` in `config.js`): english is en-US
and spanish is es-US; any other key is absent. -/
def configLanguages (language : String) : Option LanguageOption :=
  if language = "english" then some ⟨"en-US"⟩
  else if language = "spanish" then some ⟨"es-US"⟩
  else none

/-- The outward frames sent by the controller's listeners for one adapter
event: one non-terminal text frame per token delta; one terminal empty-token
frame per text completion; a language frame only when the requested locale is
configured (an unsupported request is logged and dropped with no outward
frame); an end frame carrying the serialized handoff data; an error frame for
adapter errors; nothing for thinking, tool calls or run completion. -/
def onAgentEvent : AgentEvent → List OutMessage
  | .textDelta token => [.text token false]
  | .textComplete _ => [.text "" true]
  | .thinking => []
  | .toolCall _ _ => []
  | .languageSwitch targetLanguage =>
      match configLanguages targetLanguage with
      | none => []
      | some languageConfig =>
          [.language languageConfig.locale_code languageConfig.locale_code]
  | .handoff handoffData => [.endSession handoffData]
  | .errorEvent message => [.errorMsg message]
  | .runComplete => []

/-- Relay a sequence of adapter events to outward frames in emission order. -/
def relayEvents (evs : List AgentEvent) : List OutMessage :=
  evs.foldr (fun e acc => onAgentEvent e ++ acc) []

theorem relayEvents_cons (e : AgentEvent) (evs : List AgentEvent) :
    relayEvents (e :: evs) = onAgentEvent e ++ relayEvents evs := rfl

theorem relay_token_stream (tokens : List String) (content : String) :
    relayEvents (tokens.map AgentEvent.textDelta ++
        [AgentEvent.textComplete content]) =
      tokens.map (fun t => OutMessage.text t false) ++
        [OutMessage.text "" true] := by
  induction tokens with
  | nil => rfl
  | cons t rest ih =>
      rw [List.map_cons, List.cons_append, relayEvents_cons, ih]
      rfl

/-- C6: each textDelta with a non-empty token emits exactly one outward frame
(type text, that token, last false); each textComplete emits exactly one
terminal frame (type text, empty token, last true); a stream of n tokens then
textComplete yields the n ordered non-terminal frames followed by the single
terminal frame. -/
theorem C6_token_relay (tokens : List String) (content : String)
    (hne : ∀ t ∈ tokens, t ≠ "") :
    (∀ t ∈ tokens, onAgentEvent (.textDelta t) = [.text t false]) ∧
    onAgentEvent (.textComplete content) = [.text "" true] ∧
    relayEvents (tokens.map AgentEvent.textDelta ++
        [AgentEvent.textComplete content]) =
      tokens.map (fun t => OutMessage.text t false) ++
        [OutMessage.text "" true] :=
  ⟨fun t _ => rfl, rfl, relay_token_stream tokens content⟩

/-- C6 witness: the spec scenario tokens "Hi" and " there" followed by
textComplete produce two non-terminal text frames then the terminal frame. -/
theorem C6_token_relay_witness :
    relayEvents (["Hi", " there"].map AgentEvent.textDelta ++
        [AgentEvent.textComplete "Hi there"]) =
      (["Hi", " there"].map (fun t => OutMessage.text t false)) ++
        [OutMessage.text "" true] :=
  (C6_token_relay ["Hi", " there"] "Hi there" (by decide)).2.2

/-- C9: a languageSwitch event for a locale missing from `config.languages`
is dropped with no outward message of any type; for a configured locale
exactly one language frame is sent, carrying the configured locale code as
both the tts and the transcription language. -/
theorem C9_language_switch (lang : String) :
    (configLanguages lang = none → onAgentEvent (.languageSwitch lang) = []) ∧
    (∀ lc, configLanguages lang = some lc →
      onAgentEvent (.languageSwitch lang) =
        [.language lc.locale_code lc.locale_code]) := by
  constructor
  · intro hn; simp [onAgentEvent, hn]
  · intro lc hs; simp [onAgentEvent, hs]

/-- C9 witness: "french" is unsupported and dropped; "spanish" yields exactly
one language frame carrying es-US twice. -/
theorem C9_language_switch_witness :
    onAgentEvent (.languageSwitch "french") = [] ∧
    onAgentEvent (.languageSwitch "spanish") =
      [.language "es-US" "es-US"] :=
  ⟨(C9_language_switch "french").1 rfl,
   (C9_language_switch "spanish").2 ⟨"es-US"⟩ rfl⟩

/-! ## Backend stream processing (`streamResponse` in
`azureAgentService.js`) -/

/-- Stream events delivered by the Azure run-stream iterator (the cases of
the switch in `streamResponse`). -/
inductive StreamEvent where
  | runStatus
  | requiresAction (toolName : String) (arguments : String)
  | stepStatus
  | messageStatus
  | messageDelta (token : String)
  | messageCompleted
  | runCompleted
  | runFailed (message : String)
  | streamError (message : String)
  | done
deriving DecidableEq, Repr

/-- `_handleSpecialToolCalls`: emit a languageSwitch event for the language
tools when a target language is present, and a handoff event for the handoff
tools (the argument string models the parsed target language / serialized
arguments). -/
def handleSpecialToolCalls (toolName : String) (arguments : String) :
    List AgentEvent :=
  (if (toolName = "switch_language" ∨ toolName = "change_language") ∧
      arguments ≠ "" then [AgentEvent.languageSwitch arguments] else []) ++
  (if toolName = "human_agent_handoff" ∨ toolName = "transfer_to_agent" ∨
      toolName = "escalate" then [AgentEvent.handoff arguments] else [])

/-- The dispatch switch body of `streamResponse` for one stream event, given
the message text accumulated so far; returns the new accumulated text and the
events emitted. -/
def dispatchStreamEvent (content : String) :
    StreamEvent → String × List AgentEvent
  | .runStatus => (content, [.thinking])
  | .requiresAction toolName arguments =>
      (content, .toolCall toolName arguments ::
        handleSpecialToolCalls toolName arguments)
  | .stepStatus => (content, [.thinking])
  | .messageStatus => (content, [])
  | .messageDelta token => (content ++ token, [.textDelta token])
  | .messageCompleted =>
      (content, if content ≠ "" then [.textComplete content] else [])
  | .runCompleted => (content, [.runComplete])
  | .runFailed message => (content, [.errorEvent message])
  | .streamError message => (content, [.errorEvent message])
  | .done => (content, [])

/-- Whether the externally invoked `stopStreaming()` (which clears
`isStreaming`) happened before iteration `i` of the event loop. -/
def stoppedAt (stopAt : Option Nat) (i : Nat) : Bool :=
  match stopAt with
  | some k => decide (k ≤ i)
  | none => false

/-- The `for await` event loop of `streamResponse`: at the top of each
iteration the loop checks `isStreaming` and breaks before dispatching the
current event if the stream was already marked stopped. -/
def streamLoop (stopAt : Option Nat) :
    List StreamEvent → Nat → String → List AgentEvent
  | [], _, _ => []
  | e :: rest, i, content =>
      if stoppedAt stopAt i then []
      else
        (dispatchStreamEvent content e).2 ++
          streamLoop stopAt rest (i + 1) (dispatchStreamEvent content e).1

theorem streamLoop_stopped (k : Nat) (l : List StreamEvent)
    (i : Nat) (content : String) :
    streamLoop (some k) l i content =
      streamLoop none (l.take (k - i)) i content := by
  induction l generalizing i content with
  | nil => simp [streamLoop]
  | cons e rest ih =>
      by_cases hstop : k ≤ i
      · have h0 : k - i = 0 := by omega
        simp [streamLoop, stoppedAt, hstop, h0]
      · have hpos : k - i = (k - (i + 1)) + 1 := by omega
        rw [hpos]
        simp only [streamLoop, stoppedAt, List.take_succ_cons]
        rw [if_neg (by simpa using hstop)]
        simp [ih]

/-- Whether the `for await` loop breaks before exhausting the `n` events the
iterator yields: it does exactly when the stop index is below `n`.  When it
breaks, the loop exits via `break` (the iterator is released) and a rejection
with which the stream would have terminated never surfaces. -/
def loopBreaksEarly (stopAt : Option Nat) (n : Nat) : Bool :=
  match stopAt with
  | some k => decide (k < n)
  | none => false

/-- `streamResponse()` including its catch block.  The run-stream iterator
yields `events` and then terminates: normally (`rejection = none`) or by
rejecting the pending await (`rejection = some msg`).  The emitted events are
those of the loop (which checks `isStreaming` at the top of each iteration);
if the loop did not break early, a terminating rejection propagates out of the
`for await` into the catch block, which emits one `error` event
unconditionally — whether or not the stream was already marked stopped —
before clearing `isStreaming` and rethrowing. -/
def streamResponseFull (events : List StreamEvent) (rejection : Option String)
    (stopAt : Option Nat) : List AgentEvent :=
  streamLoop stopAt events 0 "" ++
    (match rejection with
     | some msg =>
         if loopBreaksEarly stopAt events.length then []
         else [AgentEvent.errorEvent msg]
     | none => [])

/-- C8, counterexample to the claim as stated: the stream yields one token
delta, `stopStreaming` marks the stream stopped while the next await is
pending (stop index 1), and the iterator then terminates by rejecting.  The
loop never reaches its `isStreaming` check for a further event, the rejection
propagates to the catch block, and an `error` event belonging to the stream
already marked stopped IS emitted — not suppressed as the claim requires. -/
theorem C8_counterexample :
    streamResponseFull [StreamEvent.messageDelta "Hi"] (some "boom")
        (some 1) =
      [AgentEvent.textDelta "Hi", AgentEvent.errorEvent "boom"] ∧
    AgentEvent.errorEvent "boom" ∈
      streamResponseFull [StreamEvent.messageDelta "Hi"] (some "boom")
        (some 1) := by
  exact ⟨rfl, by decide⟩

/-- C8 (amended): once the stream is marked stopped, every event it still
YIELDS — textDelta, textComplete, toolCall, languageSwitch, handoff,
runComplete and error events alike — is suppressed before emission: the
emitted events equal those of the stream truncated at the stop point, and a
rejection behind the break point is swallowed with the iterator.  The one
exception is the catch block: a rejection that surfaces because the loop had
not broken yet is emitted as an `error` event even when the stream was
already marked stopped. -/
theorem C8_stop_suppression_catch :
    (∀ (events : List StreamEvent) (k : Nat),
      streamResponseFull events none (some k) =
        streamResponseFull (events.take k) none none) ∧
    (∀ (events : List StreamEvent) (msg : String) (k : Nat),
      k < events.length →
      streamResponseFull events (some msg) (some k) =
        streamResponseFull (events.take k) none none) ∧
    (∀ (events : List StreamEvent) (msg : String),
      streamResponseFull events (some msg) (some events.length) =
        streamResponseFull events none none ++
          [AgentEvent.errorEvent msg]) := by
  refine ⟨?_, ?_, ?_⟩
  · intro events k
    unfold streamResponseFull
    rw [streamLoop_stopped k events 0 ""]
    simp
  · intro events msg k hk
    unfold streamResponseFull loopBreaksEarly
    rw [streamLoop_stopped k events 0 ""]
    simp [hk]
  · intro events msg
    unfold streamResponseFull loopBreaksEarly
    rw [streamLoop_stopped events.length events 0 ""]
    simp

/-- C8 witness: a stop at index 1 of a two-delta stream suppresses the second
delta and swallows the rejection; a stop that the rejection beats (stop index
equal to the number of yielded events) still yields the catch's error
emission. -/
theorem C8_stop_suppression_catch_witness :
    streamResponseFull
        [StreamEvent.messageDelta "a", StreamEvent.messageDelta "b"]
        (some "x") (some 1) =
      streamResponseFull
        ([StreamEvent.messageDelta "a", StreamEvent.messageDelta "b"].take 1)
        none none ∧
    streamResponseFull [StreamEvent.messageDelta "a"] (some "x") (some 1) =
      streamResponseFull [StreamEvent.messageDelta "a"] none none ++
        [AgentEvent.errorEvent "x"] :=
  ⟨C8_stop_suppression_catch.2.1
      [StreamEvent.messageDelta "a", StreamEvent.messageDelta "b"] "x" 1
      (by decide),
   C8_stop_suppression_catch.2.2 [StreamEvent.messageDelta "a"] "x"⟩

/-! ## Concurrent `processMessage` calls on one session
(`case 'prompt'` and `case 'dtmf'` in `websocketService.js` both invoke
`agentService.processMessage(...).catch(...)` fire-and-forget; `processMessage`
awaits `addMessage` and then `streamResponse` on the same
`AzureAgentService`, whose single `isStreaming` flag both streams share; no
per-session queue or mutex exists anywhere in the controller or the service,
so the event loop may resume either task's pending await first: every
interleaving of the two tasks' await-boundary steps is schedulable.) -/

/-- Await-boundary phases of one fire-and-forget `processMessage` task. -/
inductive PmPhase where
  | notStarted
  | addingMessage
  | streaming
  | finished
deriving DecidableEq, Repr

/-- One session's state while the prompt-triggered task (t1) and the
dtmf-completion-triggered task (t2) run concurrently: the two task phases and
the shared `isStreaming` flag of the single `AzureAgentService`. -/
structure TwoTasks where
  t1 : PmPhase
  t2 : PmPhase
  isStreaming : Bool
deriving DecidableEq, Repr

/-- Both tasks issued, neither resumed yet; no stream running. -/
def TwoTasks.start : TwoTasks := ⟨.notStarted, .notStarted, false⟩

/-- Advance one task past its next await boundary: `addMessage` is called
(and awaited); its await resolves and `streamResponse` begins, setting the
shared flag; the stream ends, clearing the shared flag. -/
def stepPhase (p : PmPhase) (s : Bool) : PmPhase × Bool :=
  match p with
  | .notStarted => (.addingMessage, s)
  | .addingMessage => (.streaming, true)
  | .streaming => (.finished, false)
  | .finished => (.finished, s)

/-- Resume one of the two tasks (`true` resumes t1). -/
def TwoTasks.step (st : TwoTasks) (first : Bool) : TwoTasks :=
  if first then
    { st with t1 := (stepPhase st.t1 st.isStreaming).1,
              isStreaming := (stepPhase st.t1 st.isStreaming).2 }
  else
    { st with t2 := (stepPhase st.t2 st.isStreaming).1,
              isStreaming := (stepPhase st.t2 st.isStreaming).2 }

/-- Execute an event-loop schedule. -/
def execSched (sched : List Bool) : TwoTasks :=
  sched.foldl TwoTasks.step TwoTasks.start

/-- C2, evidence of the violation: because neither the controller nor the
service serializes the two fire-and-forget `processMessage` calls, the
schedule in which both `addMessage` awaits resolve before either stream ends
is admissible.  After it, both `streamResponse` calls are in flight
simultaneously — the second `addMessage` started (and resolved) before the
first `streamResponse` resolved — and one more step shows the first task's
completion clearing the shared `isStreaming` flag while the second stream is
still running, so the second stream's event loop breaks and its output is
dropped. -/
theorem C2_no_mutual_exclusion :
    (execSched [true, false, true, false]).t1 = PmPhase.streaming ∧
    (execSched [true, false, true, false]).t2 = PmPhase.streaming ∧
    (execSched [true, false, true, false, true]).t1 = PmPhase.finished ∧
    (execSched [true, false, true, false, true]).t2 = PmPhase.streaming ∧
    (execSched [true, false, true, false, true]).isStreaming = false :=
  ⟨rfl, rfl, rfl, rfl, rfl⟩

/-! ## Session controller lifecycle (`websocketService.js`) -/

/-- Per-session `AzureAgentService` fields relevant to the protocol. -/
structure AgentService where
  sessionId : String
  threadId : Option String
  isStreaming : Bool
deriving DecidableEq, Repr

/-- `SessionData` stored in the `activeSessions` map. -/
structure SessionData where
  agentService : AgentService
  dtmfHelper : DTMFHelper
  idleTimer : IdleTimerState
deriving DecidableEq, Repr

/-- Process-wide server state: the `activeSessions` registry, the
`StateManager` singleton map, the never-cancelled grace-period `setTimeout`
callbacks scheduled by close handlers (absolute fire time and the captured
session id), a counter for fresh Azure thread ids, and the wall clock. -/
structure ServerState where
  activeSessions : List (String × SessionData)
  sessionStates : SessionStates
  graceTimers : List (Int × String)
  nextThread : Nat
  now : Int

/-- A freshly started server. -/
def ServerState.empty : ServerState := ⟨[], fun _ => none, [], 0, 0⟩

/-- `Map.set` semantics on the registry: overwrite in place or append. -/
def setSession (l : List (String × SessionData)) (id : String)
    (sd : SessionData) : List (String × SessionData) :=
  match l with
  | [] => [(id, sd)]
  | (k, v) :: rest =>
      if k = id then (k, sd) :: rest else (k, v) :: setSession rest id sd

/-- The grace period of the close handler: 5 minutes in milliseconds. -/
def gracePeriodMs : Int := 5 * 60 * 1000

/-- The reconnection system notice pushed into a restored thread. -/
def reconnectionNotice : String :=
  "SYSTEM NOTICE: The connection was temporarily disconnected and has now " ++
  "been restored. If the user\x27s last message is unclear or incomplete, " ++
  "please politely ask them to repeat or clarify their request."

/-- Per-connection closure variables of `initializeWebSocketHandlers`:
the service bundle (`agentService`/`dtmfHelper`/`idleTimer`, all assigned
together by `initializeSession` and aliasing the registry entry) and
`currentSessionId` (empty string until a setup message arrives). -/
structure Connection where
  services : Option SessionData
  currentSessionId : String
deriving DecidableEq, Repr

/-- A freshly accepted connection. -/
def Connection.empty : Connection := ⟨none, ""⟩

/-- `initializeSession(sessionId)` acting on the server state: if the id is
live in `activeSessions`, rebind the connection to the existing session
unchanged; else create fresh services, restore the thread id from an
unexpired snapshot (adding the reconnection notice to the thread) or create a
fresh backend thread, and register the session.  Returns the new server
state, the session data now bound to the connection, and the system messages
added to the backend thread. -/
def handleSetup (s : ServerState) (sessionId : String) :
    ServerState × SessionData × List String :=
  match s.activeSessions.lookup sessionId with
  | some existing => (s, existing, [])
  | none =>
      let agentService : AgentService := ⟨sessionId, none, false⟩
      let r := restoreState s.sessionStates sessionId s.now
      match r.2 with
      | some savedState =>
          let restored : AgentService :=
            match savedState.threadId with
            | some threadId => { agentService with threadId := some threadId }
            | none => agentService
          let sd : SessionData := ⟨restored, DTMFHelper.init, ⟨none, 10000, false⟩⟩
          ({ s with activeSessions := setSession s.activeSessions sessionId sd,
                    sessionStates := r.1 },
           sd, [reconnectionNotice])
      | none =>
          let fresh : AgentService :=
            { agentService with
                threadId := some ("thread-" ++ toString s.nextThread) }
          let sd : SessionData := ⟨fresh, DTMFHelper.init, ⟨none, 10000, false⟩⟩
          ({ s with activeSessions := setSession s.activeSessions sessionId sd,
                    sessionStates := r.1,
                    nextThread := s.nextThread + 1 },
           sd, [])

/-- The `ws.on('close')` handler: if the connection has a session, persist
the adapter's `getState()` snapshot; then schedule the cleanup `setTimeout`
after the 5-minute grace period.  The timeout handle is not stored anywhere
and nothing ever cancels it. -/
def handleClose (s : ServerState) (c : Connection) : ServerState :=
  let s1 :=
    match c.services with
    | some sd =>
        if c.currentSessionId ≠ "" then
          let snap : AgentServiceState :=
            ⟨sd.agentService.sessionId, sd.agentService.threadId, s.now⟩
          { s with sessionStates :=
              saveState s.sessionStates c.currentSessionId snap s.now }
        else s
    | none => s
  { s1 with graceTimers :=
      s1.graceTimers ++ [(s1.now + gracePeriodMs, c.currentSessionId)] }

/-- The grace-period cleanup callback body: if the captured session id is
non-empty and still present in `activeSessions`, remove the session, clean up
its services, and delete its saved snapshot.  This `has` test is the only
rebind check, and a rebind leaves the id present. -/
def fireGraceTimer (s : ServerState) (sessionId : String) : ServerState :=
  if sessionId ≠ "" ∧ (s.activeSessions.lookup sessionId).isSome then
    { s with activeSessions :=
        s.activeSessions.filter (fun p => p.1 != sessionId),
             sessionStates := deleteState s.sessionStates sessionId }
  else s

/-- Fire due grace timers one at a time, with fuel. -/
def ServerState.fireGraceAux : Nat → ServerState → ServerState
  | 0, s => s
  | fuel + 1, s =>
      match s.graceTimers.find? (fun p => decide (p.1 ≤ s.now)) with
      | none => s
      | some p =>
          ServerState.fireGraceAux fuel
            (fireGraceTimer { s with graceTimers := s.graceTimers.erase p }
              p.2)

/-- Advance the server clock to `t`, firing every grace timer due by then. -/
def ServerState.advanceTo (s : ServerState) (t : Int) : ServerState :=
  ServerState.fireGraceAux (s.graceTimers.length) { s with now := t }

/-- Inbound Conversation Relay protocol messages. -/
inductive InMessage where
  | setup (callSid : String)
  | prompt (voicePrompt : String)
  | dtmf (digit : Char)
  | interrupt
  | transportError
deriving DecidableEq, Repr

/-- Calls issued to the Agent Stream Adapter by the dispatcher. -/
inductive AdapterCall where
  | processMessage (text : String)
  | addMessage (text : String)
  | stopStreaming
deriving DecidableEq, Repr

/-- The `ws.on('message')` dispatcher switch of `websocketService.js`.
`setup` initializes or rebinds the session.  `prompt` without an initialized
session sends an outward error frame and returns; with one it forwards the
prompt fire-and-forget.  `dtmf` without initialized services only logs and
returns (no outward frame); with them the digit drives the DTMF machine,
restarting the idle timer and forwarding a completed collection.  `interrupt`
silently does nothing without a session, else stops streaming.  A transport
`error` message is logged only. -/
def dispatchMessage (s : ServerState) (c : Connection) :
    InMessage → ServerState × Connection × List OutMessage × List AdapterCall
  | .setup callSid =>
      let r := handleSetup s callSid
      (r.1, ⟨some r.2.1, callSid⟩, [], r.2.2.map AdapterCall.addMessage)
  | .prompt voicePrompt =>
      match c.services with
      | none =>
          (s, c,
           [OutMessage.errorMsg
              "Session not initialized. Setup message required first."],
           [])
      | some _ => (s, c, [], [AdapterCall.processMessage voicePrompt])
  | .dtmf digit =>
      match c.services with
      | none => (s, c, [], [])
      | some sd =>
          let r := handleDtmfDigit sd.dtmfHelper digit
          let sd2 : SessionData := { sd with dtmfHelper := r.1 }
          ({ s with activeSessions :=
               setSession s.activeSessions c.currentSessionId sd2 },
           ⟨some sd2, c.currentSessionId⟩, [],
           (r.2.map AdapterCall.processMessage).toList)
  | .interrupt =>
      match c.services with
      | none => (s, c, [], [])
      | some sd =>
          let sd2 : SessionData :=
            { sd with agentService :=
                { sd.agentService with isStreaming := false } }
          ({ s with activeSessions :=
               setSession s.activeSessions c.currentSessionId sd2 },
           ⟨some sd2, c.currentSessionId⟩, [], [AdapterCall.stopStreaming])
  | .transportError => (s, c, [], [])

/-- C7, counterexample to the claim as stated: a `dtmf` (and likewise an
`interrupt`) arriving on a connection whose session is not initialized is
rejected WITHOUT any outward error frame — the handler only logs and returns
(only `prompt` sends an outward error). -/
theorem C7_counterexample :
    (dispatchMessage ServerState.empty Connection.empty
        (InMessage.dtmf '5')).2.2.1 = [] ∧
    (dispatchMessage ServerState.empty Connection.empty
        InMessage.interrupt).2.2.1 = [] ∧
    ¬ (∃ msg, OutMessage.errorMsg msg ∈
        (dispatchMessage ServerState.empty Connection.empty
          (InMessage.dtmf '5')).2.2.1) := by
  refine ⟨rfl, rfl, ?_⟩
  rintro ⟨msg, hmem⟩
  simp [dispatchMessage, Connection.empty] at hmem

/-- C7 (amended): every prompt, dtmf or interrupt on an uninitialized session
is rejected with no change to server state, connection state or adapter
calls; but only `prompt` sends an explicit outward error frame — `dtmf` and
`interrupt` are dropped silently (log only, no outward message). -/
theorem C7_uninitialized_guards (s : ServerState) (c : Connection)
    (hc : c.services = none) (v : String) (d : Char) :
    dispatchMessage s c (.prompt v) =
      (s, c,
       [OutMessage.errorMsg
          "Session not initialized. Setup message required first."], []) ∧
    dispatchMessage s c (.dtmf d) = (s, c, [], []) ∧
    dispatchMessage s c .interrupt = (s, c, [], []) := by
  refine ⟨?_, ?_, ?_⟩ <;> simp [dispatchMessage, hc]

/-- C7 witness: the amended guards at a concrete uninitialized connection. -/
theorem C7_uninitialized_guards_witness :
    dispatchMessage ServerState.empty Connection.empty (.prompt "Hello") =
      (ServerState.empty, Connection.empty,
       [OutMessage.errorMsg
          "Session not initialized. Setup message required first."], []) ∧
    dispatchMessage ServerState.empty Connection.empty (.dtmf '5') =
      (ServerState.empty, Connection.empty, [], []) ∧
    dispatchMessage ServerState.empty Connection.empty .interrupt =
      (ServerState.empty, Connection.empty, [], []) :=
  C7_uninitialized_guards ServerState.empty Connection.empty rfl "Hello" '5'

/-- The C1 scenario: session CA1 is set up at t=0, its transport closes at
t=10000 (scheduling destruction at t=310000), a rebind setup for CA1 arrives
at t=60000 — well inside the grace period — and the clock then passes the
grace deadline.  Returns the final server state and the session data the
rebind returned. -/
def c1Trace : ServerState × SessionData :=
  let r1 := handleSetup ServerState.empty "CA1"
  let conn1 : Connection := ⟨some r1.2.1, "CA1"⟩
  let s2 := r1.1.advanceTo 10000
  let s3 := handleClose s2 conn1
  let s4 := s3.advanceTo 60000
  let r5 := handleSetup s4 "CA1"
  let s6 := r5.1.advanceTo 310000
  (s6, r5.2.1)

/-- C1, evidence of the violation: no operation ever cancels a scheduled
grace-period destruction (`handleSetup` leaves `graceTimers` untouched — the
close handler's `setTimeout` handle is never stored), and in the concrete
rebind scenario the session IS destroyed when the grace timer fires even
though a rebind occurred first: after the deadline CA1 is gone from
`activeSessions` and its snapshot is deleted.  The claim's other half holds:
the rebind returned the identical Adapter thread id from before the close. -/
theorem C1_rebind_not_cancelling :
    (∀ (s : ServerState) (sessionId : String),
      (handleSetup s sessionId).1.graceTimers = s.graceTimers) ∧
    c1Trace.2.agentService.threadId =
      (handleSetup ServerState.empty "CA1").2.1.agentService.threadId ∧
    c1Trace.2.agentService.threadId = some "thread-0" ∧
    c1Trace.1.activeSessions.lookup "CA1" = none ∧
    c1Trace.1.sessionStates "CA1" = none := by
  refine ⟨?_, rfl, rfl, rfl, rfl⟩
  intro s sessionId
  unfold handleSetup
  split
  · rfl
  · dsimp only
    split <;> rfl
end TwilioAzure
